import Mathlib

/-!
# Verification of the `hannah` rotating file writer and helpers

A shallow embedding of `src/hannah/filesystem.py` (classes `IOBase`,
`IOHelper`, `IOWriter`), `src/hannah/utils.py` (`SingletonMeta`) and
`src/hannah/exceptions.py` (`HannahException`), together with theorems
settling the specification claims about them.

The filesystem is modelled as the listing of the single parent directory
of the writer's file: an association list from file name to file content.
All operations are sequential and deterministic, matching the library's
single-threaded usage model.
-/

namespace Hannah

/-- The kinds of Python exceptions the embedded code can raise. -/
inductive Err
  | typeError (msg : String)
  | valueError (msg : String)
  | unsupported (msg : String)
  | fileNotFound
  | fileExists
  deriving DecidableEq, Repr

/-- The parent directory of the writer's file: an association list from
file name to file content.  `os.listdir` order is irrelevant because the
source always sorts what it lists. -/
abbrev FS := List (String × String)

/-- Content of a file, if it exists. -/
def fsRead (fs : FS) (name : String) : Option String :=
  (fs.find? (fun p => p.1 = name)).map (fun p => p.2)

/-- Create or overwrite a file with the given content. -/
def fsWrite (fs : FS) (name content : String) : FS :=
  if fs.any (fun p => p.1 = name) then
    fs.map (fun p => if p.1 = name then (name, content) else p)
  else
    fs ++ [(name, content)]

/-- Delete a file. -/
def fsRemove (fs : FS) (name : String) : FS :=
  fs.filter (fun p => ¬ p.1 = name)

/-- `os.rename(src, dst)`: move the content of `src` to `dst`.  The
caller (`IOWriter.rotate`) only renames after checking existence. -/
def fsRename (fs : FS) (src dst : String) : FS :=
  match fsRead fs src with
  | some c => fsWrite (fsRemove fs src) dst c
  | none => fs

/-- `os.listdir(parent)`. -/
def listdir (fs : FS) : List String :=
  fs.map (fun p => p.1)

/-- The builtin `open(name, mode)` restricted to what the library uses:
`x` creates (failing on an existing file), `w` truncates, `a` appends
(creating if absent), `r` requires existence; any mode without one of
those characters is rejected by the interpreter. -/
def pyOpen (fs : FS) (name mode : String) : Except Err FS :=
  if mode.data.contains 'x' then
    match fsRead fs name with
    | some _ => .error .fileExists
    | none => .ok (fsWrite fs name "")
  else if mode.data.contains 'w' then
    .ok (fsWrite fs name "")
  else if mode.data.contains 'a' then
    match fsRead fs name with
    | some _ => .ok fs
    | none => .ok (fsWrite fs name "")
  else if mode.data.contains 'r' then
    match fsRead fs name with
    | some _ => .ok fs
    | none => .error .fileNotFound
  else
    .error (.valueError "Must have exactly one of create, read, write or append mode")

/-- Lexicographic comparison of character lists by code point, the order
Python uses to compare strings. -/
def charListLt : List Char → List Char → Bool
  | [], [] => false
  | [], _ :: _ => true
  | _ :: _, [] => false
  | c :: cs, d :: ds => if c < d then true else if d < c then false else charListLt cs ds

/-- Python string `<=`. -/
def pyStrLe (s t : String) : Bool :=
  ! charListLt t.data s.data

/-- Insertion step of a stable string sort (models the builtin `sorted`). -/
def sortedInsert (s : String) : List String → List String
  | [] => [s]
  | t :: ts => if pyStrLe s t then s :: t :: ts else t :: sortedInsert s ts

/-- The builtin `sorted` on a list of strings. -/
def pySorted : List String → List String
  | [] => []
  | s :: ss => sortedInsert s (pySorted ss)

/-- `fnmatch` against the pattern `f"{name}*.?"`: the candidate starts
with `name` and the remainder ends in a dot followed by exactly one
character. -/
def fnmatchBackup (name s : String) : Bool :=
  name.data.isPrefixOf s.data &&
    (let r := (s.drop name.length).data
     decide (2 ≤ r.length) && decide (r.getD (r.length - 2) ' ' = '.'))

namespace IOHelper

/-- `IOHelper.siblings`: sorted matches of `f"{name}*.?"` in the parent
directory, with the base name itself appended at the end. -/
def siblings (fs : FS) (filename : String) : List String :=
  pySorted ((listdir fs).filter (fun s => fnmatchBackup filename s)) ++ [filename]

/-- `IOHelper.index`: the length of `siblings`. -/
def index (fs : FS) (filename : String) : Nat :=
  (siblings fs filename).length

/-- `IOHelper.lines`: the number of lines yielded by iterating the open
file, i.e. the number of newline characters plus one more for a final
unterminated fragment. -/
def lines (content : String) : Nat :=
  if content = "" then 0
  else (content.data.filter (fun c => c = '\n')).length +
    (if content.data.getLast? = some '\n' then 0 else 1)

/-- `IOHelper.size`: `os.stat(...).st_size` of a text file written with
a byte-oriented encoding. -/
def size (content : String) : Nat :=
  content.utf8ByteSize

end IOHelper

/-- The `mode` argument of `IOWriter.__init__`: either a string or some
other object carrying its printed representation. -/
inductive ModeArg
  | str (s : String)
  | nonStr (r : String)
  deriving DecidableEq, Repr

/-- The two leading checks of `IOWriter.__init__`: a `TypeError` for a
non-string mode, a `ValueError` when `set(mode)` is not contained in
`set("xrwabt+")`. -/
def validateMode : ModeArg → Except Err String
  | .nonStr r => .error (.typeError ("Invalid mode: " ++ r))
  | .str s =>
    if s.data.all (fun c => "xrwabt+".data.contains c) then .ok s
    else .error (.valueError ("Invalid mode: " ++ s))

/-- The capability branch of `IOWriter.__init__` (lines 253-260),
returning `(readable, writable)`.  The `r` branch calls
`self._check_readable()`, which raises because the class default
`_readable` is still `False` at that point. -/
def deriveFlags (mode : String) : Except Err (Bool × Bool) :=
  if mode.data.contains 'x' || mode.data.contains 'w' || mode.data.contains 'a' then
    .ok (false, true)
  else if mode.data.contains 'r' then
    .error (.unsupported "File not open in reading mode")
  else if mode.data.contains '+' then
    .ok (true, true)
  else
    .ok (false, false)

/-- The state of an `IOWriter` instance (the `encoding` attribute is
omitted: no claim concerns it and its default is environment-defined). -/
structure IOWriter where
  filename : String
  mode : String
  maxbytes : Int
  maxlines : Int
  ignore_linebreak : Bool
  readable : Bool
  writable : Bool
  closed : Bool
  idx : Nat
  deriving DecidableEq, Repr

namespace IOWriter

/-- `IOWriter.__init__`: validate the mode, derive capability flags,
adjust `maxlines` for `ignore_linebreak`, force append mode when a
threshold is positive, seed `idx` from `IOHelper.index`, then open. -/
def init (fs : FS) (filename : String) (mode : ModeArg)
    (maxbytes maxlines : Int) (ignore_linebreak : Bool) :
    Except Err (IOWriter × FS) :=
  match validateMode mode with
  | .error e => .error e
  | .ok s =>
    match deriveFlags s with
    | .error e => .error e
    | .ok (r, w) =>
      let ml := if ignore_linebreak then maxlines - 1 else maxlines
      let m := if maxbytes > 0 || ml > 0 then "a" else s
      let idx := IOHelper.index fs filename
      match pyOpen fs filename m with
      | .error e => .error e
      | .ok fs' =>
        .ok ({ filename := filename, mode := m, maxbytes := maxbytes,
               maxlines := ml, ignore_linebreak := ignore_linebreak,
               readable := r, writable := w, closed := false, idx := idx },
             fs')

/-- `IOBase._check_closed` / `IOBase._check_writable` as used by
`IOWriter.flush` (lines 308-323): a no-op that raises on a closed or
non-writable writer. -/
def flush (w : IOWriter) : Except Err Unit :=
  if w.closed then .error (.valueError "I/O operation on closed file")
  else if ¬ w.writable then .error (.unsupported "File not open in writing mode")
  else .ok ()

/-- `IOWriter.close` (lines 296-306): release the handle (no filesystem
effect) and mark the writer closed; idempotent. -/
def close (w : IOWriter) (fs : FS) : Except Err Unit × IOWriter × FS :=
  (.ok (), { w with closed := true }, fs)

/-- `IOWriter.rotate` (lines 344-362).  The byte check runs only when
`maxbytes` is truthy and positive (equivalently, positive); likewise the
line check.  On rollover: check not closed, close, rename the file to
`f"{filename}.{idx}"`, increment `idx`, reopen.  Errors leave the state
reached so far. -/
def rotate (w : IOWriter) (fs : FS) : Except Err Unit × IOWriter × FS :=
  let sizeCheck : Except Err Bool :=
    if w.maxbytes > 0 then
      match fsRead fs w.filename with
      | some c => .ok (decide ((IOHelper.size c : Int) > w.maxbytes))
      | none => .error .fileNotFound
    else .ok false
  match sizeCheck with
  | .error e => (.error e, w, fs)
  | .ok r1 =>
    let lineCheck : Except Err Bool :=
      if w.maxlines > 0 then
        match fsRead fs w.filename with
        | some c => .ok (decide ((IOHelper.lines c : Int) > w.maxlines))
        | none => .error .fileNotFound
      else .ok false
    match lineCheck with
    | .error e => (.error e, w, fs)
    | .ok r2 =>
      if r1 || r2 then
        if w.closed then
          (.error (.valueError "I/O operation on closed file"), w, fs)
        else
          let w1 : IOWriter := { w with closed := true }
          match fsRead fs w.filename with
          | some _ =>
            let fs1 := fsRename fs w.filename (w.filename ++ "." ++ Nat.repr w.idx)
            let w2 : IOWriter := { w1 with idx := w.idx + 1 }
            match pyOpen fs1 w.filename w.mode with
            | .ok fs2 => (.ok (), { w2 with closed := false }, fs2)
            | .error e => (.error e, w2, fs1)
          | none => (.error .fileNotFound, w1, fs)
      else
        (.ok (), w, fs)

/-- `IOWriter.write` (lines 325-342): check not closed and writable,
append the space/newline-framed rendering of the arguments through the
file handle, flush, then evaluate rotation.  A `none` argument models
Python `None` (rendered as empty text); `some s` models a value whose
`str()` is `s`. -/
def write (w : IOWriter) (fs : FS) (args : List (Option String))
    (sep term : String) : Except Err Unit × IOWriter × FS :=
  if w.closed then (.error (.valueError "I/O operation on closed file"), w, fs)
  else if ¬ w.writable then
    (.error (.unsupported "File not open in writing mode"), w, fs)
  else
    match fsRead fs w.filename with
    | none => (.error .fileNotFound, w, fs)
    | some c =>
      let payload :=
        String.intercalate sep
          (args.map (fun x => match x with | none => "" | some s => s)) ++ term
      let fs1 := fsWrite fs w.filename (c ++ payload)
      match flush w with
      | .error e => (.error e, w, fs1)
      | .ok () => rotate w fs1

/-- `IOBase.read` as inherited by `IOWriter` (lines 136-139): the writer
does not implement `read`, so `self._unsupported("read")` raises
unconditionally; no chunk is ever produced. -/
def read (w : IOWriter) (size : Int) : Except Err (List String) :=
  .error (.unsupported (("IOWriter" : String) ++ ".read() not supported"))

end IOWriter

/-- The operations a caller can perform on a constructed writer. -/
inductive WriterOp
  | write (args : List (Option String)) (sep term : String)
  | rotate
  | close

/-- Apply one operation, returning the outcome together with the state
the object holds afterwards (Python exceptions leave the object in the
state reached when they were raised). -/
def applyOp : WriterOp → IOWriter → FS → Except Err Unit × IOWriter × FS
  | .write args sep term, w, fs => w.write fs args sep term
  | .rotate, w, fs => w.rotate fs
  | .close, w, fs => w.close fs

/-- Run a sequence of operations, keeping the state across failures. -/
def runOps : List WriterOp → IOWriter → FS → IOWriter × FS
  | [], w, fs => (w, fs)
  | op :: rest, w, fs =>
    let r := applyOp op w fs
    runOps rest r.2.1 r.2.2

/-! ## `SingletonMeta` (`src/hannah/utils.py`)

An instance is identified by the class it was constructed for together
with the constructor arguments it was built from, so that two instances
built from different arguments are distinguishable.  Classes and
arguments are modelled as naturals and lists of naturals. -/

/-- An object produced by `super().__call__(*args, **kwargs)`. -/
structure PyInstance where
  cls : Nat
  ctorArgs : List Nat
  deriving DecidableEq, Repr

/-- `SingletonMeta.instances`: the process-wide class-to-instance map. -/
abbrev Registry := List (Nat × PyInstance)

/-- `SingletonMeta.__call__` (lines 31-36): under the lock, construct and
store an instance only if the class has none yet; always return the
stored instance. -/
def singletonCall (reg : Registry) (cls : Nat) (args : List Nat) :
    PyInstance × Registry :=
  match reg.find? (fun p => p.1 = cls) with
  | some p => (p.2, reg)
  | none =>
    let inst : PyInstance := { cls := cls, ctorArgs := args }
    (inst, reg ++ [(cls, inst)])

/-! ## `HannahException` (`src/hannah/exceptions.py`) -/

/-- Python `str.center(width, fillchar)`. -/
def pyCenter (s : String) (width : Nat) (fill : Char) : String :=
  if width ≤ s.length then s
  else
    let marg := width - s.length
    let left := marg / 2 + (marg &&& width &&& 1)
    String.mk (List.replicate left fill) ++ s ++
      String.mk (List.replicate (marg - left) fill)

/-- Split a character list at spaces (the behaviour of `split(" ")` on
text whose whitespace is single spaces). -/
def splitAtSpaces : List Char → List Char → List String
  | [], cur => [String.mk cur.reverse]
  | c :: cs, cur =>
    if c = ' ' then String.mk cur.reverse :: splitAtSpaces cs []
    else splitAtSpaces cs (c :: cur)

/-- Greedy word-wrap modelling `textwrap.TextWrapper(width).fill` for
texts whose words are shorter than the width (the report body is). -/
def pyFill (width : Nat) (text : String) : String :=
  let step : List String × String → String → List String × String :=
    fun acc word =>
      if acc.2 = "" then (acc.1, word)
      else if acc.2.length + 1 + word.length ≤ width then
        (acc.1, acc.2 ++ " " ++ word)
      else (acc.1 ++ [acc.2], word)
  let r := (splitAtSpaces text.data []).foldl step ([], "")
  String.intercalate "\n" (r.1 ++ [r.2])

/-- The body of the bug-report banner (lines 56-63). -/
def reportBody : String :=
  "If you are seeing this, then there is something wrong with " ++
  "H.A.N.N.A.H and not your code. Please report this bug here: " ++
  "\x22https://github.com/kaamiki/hannah/issues/new\x22 so that we can " ++
  "fix the issue at the earliest. It would be a great help if you " ++
  "could provide the steps, traceback information or even a sample " ++
  "code for reproducing this bug while submitting an issue."

/-- `HannahException.report` (lines 48-65), parameterized by the terminal
width (80 when no terminal is attached). -/
def report (width : Nat) : String :=
  "\n\n" ++ pyCenter " YIKES! There's a bug! " width '-' ++ "\n" ++
    pyFill width reportBody ++ "\n\n"

/-- The final `self.msg` produced by `HannahException.__init__` when a
`msg` keyword is supplied (lines 34-41): an empty message is normalized
to `""`; the banner is appended exactly when `valid` is false and the
message is non-empty. -/
def hannahExceptionMsg (valid : Bool) (msg : String) (width : Nat) : String :=
  let m := if msg = "" then "" else msg
  if ¬ valid ∧ m ≠ "" then m ++ report width else m

/-! ## Decimal rendering

`IOWriter.rotate` names backups `f"{filename}.{idx}"`; distinctness of
those names rests on injectivity of the decimal rendering `Nat.repr`. -/

/-- The digits of `n` in base ten, most significant first (`['0']` for
zero), as produced by `Nat.toDigits 10`. -/
def natChars (n : Nat) : List Char :=
  if _h : n < 10 then [Nat.digitChar n]
  else natChars (n / 10) ++ [Nat.digitChar (n % 10)]
decreasing_by exact Nat.div_lt_self (by omega) (by omega)

theorem toDigitsCore_eq (fuel n : Nat) (ds : List Char) (h : n < fuel) :
    Nat.toDigitsCore 10 fuel n ds = natChars n ++ ds := by
  induction fuel generalizing n ds with
  | zero => omega
  | succ f ih =>
    rw [Nat.toDigitsCore]
    by_cases h10 : n < 10
    · have : n / 10 = 0 := Nat.div_eq_of_lt h10
      simp only [this, if_pos rfl]
      rw [natChars, dif_pos h10, Nat.mod_eq_of_lt h10]
      rfl
    · have hne : ¬ n / 10 = 0 := by
        have : 0 < n / 10 := Nat.div_pos (by omega) (by omega)
        omega
      simp only [if_neg hne]
      have hlt : n / 10 < f := by
        have := Nat.div_lt_self (by omega : 0 < n) (by omega : 1 < 10)
        omega
      rw [ih _ _ hlt]
      conv_rhs => rw [natChars, dif_neg h10]
      rw [List.append_assoc]
      rfl

theorem natChars_eq_toDigits (n : Nat) :
    Nat.toDigits 10 n = natChars n := by
  rw [Nat.toDigits, toDigitsCore_eq _ _ _ (Nat.lt_succ_self n),
    List.append_nil]

/-- Fold a decimal digit string back into the number it denotes. -/
def decodeChars (l : List Char) : Nat :=
  l.foldl (fun a c => 10 * a + (c.toNat - 48)) 0

theorem digitChar_toNat (m : Nat) (h : m < 10) :
    (Nat.digitChar m).toNat - 48 = m := by
  revert h
  revert m
  decide

theorem foldl_natChars (n : Nat) :
    ∀ a : Nat, (natChars n).foldl (fun a c => 10 * a + (c.toNat - 48)) a =
      a * 10 ^ (natChars n).length + n := by
  induction n using Nat.strong_induction_on with
  | _ n ih =>
    intro a
    by_cases h10 : n < 10
    · rw [natChars, dif_pos h10]
      simp [digitChar_toNat n h10]
      omega
    · rw [natChars, dif_neg h10]
      have hql : n / 10 < n := Nat.div_lt_self (by omega) (by omega)
      rw [List.foldl_append, ih _ hql a]
      simp only [List.foldl_cons, List.foldl_nil, List.length_append,
        List.length_cons, List.length_nil]
      have hmod : (Nat.digitChar (n % 10)).toNat - 48 = n % 10 :=
        digitChar_toNat _ (Nat.mod_lt _ (by omega))
      rw [hmod, pow_succ]
      have := Nat.div_add_mod n 10
      ring_nf
      omega

theorem natChars_injective (m n : Nat) (h : natChars m = natChars n) :
    m = n := by
  have hm := foldl_natChars m 0
  have hn := foldl_natChars n 0
  rw [h] at hm
  simp only [Nat.zero_mul, Nat.zero_add] at hm hn
  omega

theorem repr_injective (m n : Nat) (h : Nat.repr m = Nat.repr n) : m = n := by
  apply natChars_injective
  rw [← natChars_eq_toDigits, ← natChars_eq_toDigits]
  have : (Nat.toDigits 10 m).asString.data = (Nat.toDigits 10 n).asString.data := by
    rw [show (Nat.toDigits 10 m).asString = Nat.repr m from rfl,
      show (Nat.toDigits 10 n).asString = Nat.repr n from rfl, h]
  exact this

/-! ## Association-list filesystem lemmas -/

theorem fsRead_append_keyFree (l₁ l₂ : FS) (name : String)
    (h : ∀ p ∈ l₁, ¬ p.1 = name) :
    fsRead (l₁ ++ l₂) name = fsRead l₂ name := by
  induction l₁ with
  | nil => rfl
  | cons p ps ih =>
    have hp : ¬ p.1 = name := h p (List.mem_cons_self p ps)
    simp only [fsRead, List.cons_append, List.find?_cons, decide_eq_false hp]
    exact ih (fun q hq => h q (List.mem_cons_of_mem p hq))

theorem fsRead_keyFree (l : FS) (name : String)
    (h : ∀ p ∈ l, ¬ p.1 = name) :
    fsRead l name = none := by
  have := fsRead_append_keyFree l [] name h
  simpa using this

theorem fsAny_keyFree (l : FS) (name : String)
    (h : ∀ p ∈ l, ¬ p.1 = name) :
    (l.any (fun p => p.1 = name)) = false := by
  simp only [List.any_eq_false, decide_eq_true_eq]
  exact h

theorem fsWrite_append_keyFree (l₁ l₂ : FS) (name c : String)
    (h : ∀ p ∈ l₁, ¬ p.1 = name) :
    fsWrite (l₁ ++ l₂) name c = l₁ ++ fsWrite l₂ name c := by
  simp only [fsWrite, List.any_append, fsAny_keyFree l₁ name h, Bool.false_or]
  by_cases h2 : l₂.any (fun p => p.1 = name) = true
  · rw [if_pos h2, if_pos h2, List.map_append]
    congr 1
    conv_rhs => rw [← List.map_id l₁]
    apply List.map_congr_left
    intro p hp
    simp [if_neg (h p hp)]
  · rw [if_neg h2, if_neg h2, List.append_assoc]

theorem fsWrite_keyFree (l : FS) (name c : String)
    (h : ∀ p ∈ l, ¬ p.1 = name) :
    fsWrite l name c = l ++ [(name, c)] := by
  have := fsWrite_append_keyFree l [] name c h
  simpa [fsWrite] using this

theorem fsRemove_append_keyFree (l₁ l₂ : FS) (name : String)
    (h : ∀ p ∈ l₁, ¬ p.1 = name) :
    fsRemove (l₁ ++ l₂) name = l₁ ++ fsRemove l₂ name := by
  simp only [fsRemove, List.filter_append]
  congr 1
  apply List.filter_eq_self.mpr
  intro p hp
  simpa using h p hp

/-! ## Claim C1: rotation scenario on a fresh base file -/

/-- The backup name `f"{filename}.{j}"` produced by `IOWriter.rotate`. -/
def bkName (filename : String) (j : Nat) : String :=
  filename ++ "." ++ Nat.repr j

theorem bkName_ne_base (filename : String) (j : Nat) :
    ¬ bkName filename j = filename := by
  intro h
  have hlen := congrArg String.length h
  simp only [bkName, String.length_append] at hlen
  have h1 : (".").length = 1 := rfl
  omega

theorem bkName_injective (filename : String) (i j : Nat)
    (h : bkName filename i = bkName filename j) : i = j := by
  apply repr_injective
  have hd := congrArg String.data h
  simp only [bkName, String.data_append, List.append_cancel_left_eq] at hd
  cases hr : Nat.repr i with
  | mk l =>
    cases hs : Nat.repr j with
    | mk l' =>
      rw [hr, hs] at hd
      simp_all

/-- The directory after `n` rotations of the C1 scenario: backups
`f.1 .. f.n`, each holding one over-limit write. -/
def c1Backups (n : Nat) : FS :=
  (List.range n).map (fun i => (bkName "f" (i + 1), "xx\n"))

/-- The directory after `n` writes of the C1 scenario: the backups plus
the freshly reopened, empty base file. -/
def c1FS (n : Nat) : FS :=
  c1Backups n ++ [("f", "")]

/-- The writer state after `n` writes of the C1 scenario. -/
def c1Writer (n : Nat) : IOWriter :=
  { filename := "f", mode := "a", maxbytes := 1, maxlines := -2,
    ignore_linebreak := true, readable := false, writable := true,
    closed := false, idx := n + 1 }

/-- The C1 scenario: construct a writer with `maxbytes = 1` on a fresh
base file `f` (no pre-existing backups), then perform `n` calls
`write("xx")`, each of which pushes the file past `maxbytes`. -/
def c1Run : Nat → Except Err (IOWriter × FS)
  | 0 => IOWriter.init [("f", "")] "f" (.str "w") 1 (-1) true
  | n + 1 =>
    match c1Run n with
    | .error e => .error e
    | .ok p =>
      match p.1.write p.2 [some "xx"] " " "\n" with
      | (.ok _, w, fs) => .ok (w, fs)
      | (.error e, _, _) => .error e

theorem c1Backups_keyFree_base (n : Nat) :
    ∀ p ∈ c1Backups n, ¬ p.1 = "f" := by
  intro p hp
  simp only [c1Backups, List.mem_map, List.mem_range] at hp
  obtain ⟨i, _, rfl⟩ := hp
  exact bkName_ne_base "f" (i + 1)

theorem c1Backups_keyFree_next (n : Nat) :
    ∀ p ∈ c1Backups n, ¬ p.1 = bkName "f" (n + 1) := by
  intro p hp
  simp only [c1Backups, List.mem_map, List.mem_range] at hp
  obtain ⟨i, hi, rfl⟩ := hp
  intro h
  have := bkName_injective "f" (i + 1) (n + 1) h
  omega

theorem c1_rotate_step (n : Nat) :
    (c1Writer n).rotate (c1Backups n ++ [("f", "xx\n")]) =
      (.ok (), c1Writer (n + 1), c1FS (n + 1)) := by
  have hfree := c1Backups_keyFree_base n
  have hread : fsRead (c1Backups n ++ [("f", "xx\n")]) "f" = some "xx\n" := by
    rw [fsRead_append_keyFree _ _ _ hfree]
    rfl
  have hremove : fsRemove (c1Backups n ++ [("f", "xx\n")]) "f" = c1Backups n := by
    rw [fsRemove_append_keyFree _ _ _ hfree]
    simp [fsRemove]
  have hnext : fsWrite (c1Backups n) ("f" ++ "." ++ Nat.repr (n + 1)) "xx\n" =
      c1Backups (n + 1) := by
    rw [show ("f" ++ "." ++ Nat.repr (n + 1)) = bkName "f" (n + 1) from rfl,
      fsWrite_keyFree _ _ _ (c1Backups_keyFree_next n), c1Backups,
      c1Backups, List.range_succ, List.map_append]
    rfl
  have hreopen : fsRead (c1Backups (n + 1)) "f" = none :=
    fsRead_keyFree _ _ (c1Backups_keyFree_base (n + 1))
  have hfinal : fsWrite (c1Backups (n + 1)) "f" "" = c1FS (n + 1) :=
    fsWrite_keyFree _ _ _ (c1Backups_keyFree_base (n + 1))
  have hsize : ("xx\n").utf8ByteSize = 3 := rfl
  have hcx : ("a").data.contains 'x' = false := rfl
  have hcw : ("a").data.contains 'w' = false := rfl
  have hca : ("a").data.contains 'a' = true := rfl
  simp only [IOWriter.rotate, c1Writer, fsRename, pyOpen, hread, hremove]
  norm_num [IOHelper.size, hsize, hcx, hcw, hca, hnext, hreopen, hfinal, c1FS]

theorem c1_write_step (n : Nat) :
    (c1Writer n).write (c1FS n) [some "xx"] " " "\n" =
      (.ok (), c1Writer (n + 1), c1FS (n + 1)) := by
  have hfree := c1Backups_keyFree_base n
  have hread : fsRead (c1FS n) "f" = some "" := by
    rw [c1FS, fsRead_append_keyFree _ _ _ hfree]
    rfl
  have hwrite : fsWrite (c1FS n) "f" ("xx\n") = c1Backups n ++ [("f", "xx\n")] := by
    rw [c1FS, fsWrite_append_keyFree _ _ _ _ hfree]
    rfl
  have hrot := c1_rotate_step n
  simp only [IOWriter.write, c1Writer, IOWriter.flush] at *
  simp [hread, hwrite, hrot, show ("" ++ (String.intercalate " " [("xx" : String)] ++ "\n")) = "xx\n" from by decide]

/-- C1 (amended): for a writer constructed on a fresh base file with no
pre-existing backups, after `n` calls to `write` that each push the file
past `maxBytes`, exactly `n` backup files exist and they are named
`path.1` through `path.n`: the per-writer backup index is seeded from
the count of existing sibling files — a count that includes the base
file itself and is therefore `1` on a fresh file — and increments by one
on every rotation (`idx = n + 1` after `n` rotations). -/
theorem C1_backup_naming (n : Nat) :
    c1Run n = .ok (c1Writer n, c1FS n) := by
  induction n with
  | zero => rfl
  | succ n ih =>
    rw [c1Run, ih]
    simp only [c1_write_step n]

/-- C1 counterexample: on a fresh base file, the first over-limit write
produces the backup `f.1`, not `f.0` as the claim's zero-based naming
requires; no file named `f.0` exists after the write. -/
theorem C1_counterexample :
    c1Run 1 = .ok (c1Writer 1, [("f.1", "xx\n"), ("f", "")]) ∧
    fsRead [("f.1", "xx\n"), ("f", "")] "f.0" = none :=
  ⟨rfl, rfl⟩

/-! ## Claim C3: `maxLines = 1` with `ignoreLinebreak = true` -/

/-- The C3 scenario: a writer opened with `maxlines = 1` and
`ignore_linebreak = true` (effective threshold `0`) on an empty file,
followed by the first call `write("a")`. -/
def c3Run : Except Err (IOWriter × FS) :=
  match IOWriter.init [("f", "")] "f" (.str "w") (-1) 1 true with
  | .error e => .error e
  | .ok p =>
    match p.1.write p.2 [some "a"] " " "\n" with
    | (.ok _, w, fs) => .ok (w, fs)
    | (.error e, _, _) => .error e

/-- C3 (amended): with `maxLines = 1` and `ignoreLinebreak = true` the
effective line threshold becomes `0`, which disables line-based rotation
(the rotate guard requires a strictly positive `maxlines`); the first
`write("a")` therefore performs no rotation: it leaves `"a\n"` in the
original file, creates no backup, and the writer keeps `idx = 1` and
stays open in its original (non-forced) mode `"w"`. -/
theorem C3_effective_threshold_zero :
    c3Run = .ok
      ({ filename := "f", mode := "w", maxbytes := -1, maxlines := 0,
         ignore_linebreak := true, readable := false, writable := true,
         closed := false, idx := 1 },
       [("f", "a\n")]) :=
  rfl

/-- C3 counterexample: after the first `write("a")` of the scenario, no
backup `f.0` (nor `f.1`) exists and the original file is not empty — it
holds `"a\n"` — so the claimed immediate rotation did not happen. -/
theorem C3_counterexample :
    c3Run.toOption.map (fun p => fsRead p.2 "f.0") = some none ∧
    c3Run.toOption.map (fun p => fsRead p.2 "f.1") = some none ∧
    c3Run.toOption.map (fun p => fsRead p.2 "f") = some (some "a\n") :=
  ⟨rfl, rfl, rfl⟩

/-! ## Claim C2: capability flags derived from the mode string -/

/-- C2 (amended): construction derives the capability flags from the
mode string as an ordered branch: any mode containing `x`, `w` or `a`
(with or without `+`) makes the writer writable and not readable; a mode
containing `r` but none of `x`/`w`/`a` does not produce a readable
writer — construction fails with an unsupported-operation error, because
the readable check runs while the default non-readable flag is still in
force; only a mode containing `+` and none of `x`, `r`, `w`, `a` sets
both readable and writable. -/
theorem C2_mode_flags (s : String) :
    ((s.data.contains 'x' || s.data.contains 'w' || s.data.contains 'a') = true →
      deriveFlags s = .ok (false, true)) ∧
    ((s.data.contains 'x' || s.data.contains 'w' || s.data.contains 'a') = false →
      s.data.contains 'r' = true →
      deriveFlags s = .error (.unsupported "File not open in reading mode")) ∧
    ((s.data.contains 'x' || s.data.contains 'w' || s.data.contains 'a') = false →
      s.data.contains 'r' = false → s.data.contains '+' = true →
      deriveFlags s = .ok (true, true)) ∧
    (∀ fs filename maxbytes maxlines ilb,
      s.data.all (fun c => "xrwabt+".data.contains c) = true →
      (s.data.contains 'x' || s.data.contains 'w' || s.data.contains 'a') = false →
      s.data.contains 'r' = true →
      IOWriter.init fs filename (.str s) maxbytes maxlines ilb =
        .error (.unsupported "File not open in reading mode")) := by
  refine ⟨fun h => ?_, fun h1 h2 => ?_, fun h1 h2 h3 => ?_,
    fun fs filename maxbytes maxlines ilb hall h1 h2 => ?_⟩
  · unfold deriveFlags
    rw [h]
    simp
  · unfold deriveFlags
    rw [h1, h2]
    simp
  · unfold deriveFlags
    rw [h1, h2, h3]
    simp
  · have hv : validateMode (.str s) = .ok s := by
      simp only [validateMode]
      rw [hall]
      simp
    have hd : deriveFlags s = .error (.unsupported "File not open in reading mode") := by
      unfold deriveFlags
      rw [h1, h2]
      simp
    unfold IOWriter.init
    rw [hv]
    simp [hd]

/-- C2 witness: mode `"r"` reaches the failing readable-check branch. -/
theorem C2_mode_flags_witness :
    deriveFlags "r" = .error (.unsupported "File not open in reading mode") :=
  (C2_mode_flags "r").2.1 rfl rfl

/-- C2 counterexample: construction with the pure read mode `"r"` does
not succeed as a readable-only writer — it raises an
unsupported-operation error — and the read-write mode `"w+"` yields a
writable-only writer, not one with both flags set. -/
theorem C2_counterexample :
    IOWriter.init [("f", "x")] "f" (.str "r") (-1) (-1) true =
      .error (.unsupported "File not open in reading mode") ∧
    deriveFlags "w+" = .ok (false, true) :=
  ⟨rfl, rfl⟩

/-! ## Claim C4: monotonicity of the closed flag -/

theorem closed_mono_applyOp (op : WriterOp) (w : IOWriter) (fs : FS)
    (h : w.closed = true) : ((applyOp op w fs).2.1).closed = true := by
  cases op with
  | write args sep term => simp [applyOp, IOWriter.write, h]
  | rotate =>
    unfold applyOp IOWriter.rotate
    repeat' split
    all_goals first
      | exact h
      | (simp_all
         try (split <;> simp_all))
  | close => simp [applyOp, IOWriter.close]

theorem runOps_append (l₁ l₂ : List WriterOp) (w : IOWriter) (fs : FS) :
    runOps (l₁ ++ l₂) w fs =
      runOps l₂ (runOps l₁ w fs).1 (runOps l₁ w fs).2 := by
  induction l₁ generalizing w fs with
  | nil => rfl
  | cons op rest ih => simp [runOps, ih]

theorem closed_mono_runOps (l : List WriterOp) (w : IOWriter) (fs : FS)
    (h : w.closed = true) : (runOps l w fs).1.closed = true := by
  induction l generalizing w fs with
  | nil => exact h
  | cons op rest ih =>
    exact ih _ _ (closed_mono_applyOp op w fs h)

/-- C4 (confirmed): the closed flag is monotonic over the writer's
lifetime under the interface operations `write`, `rotate` and `close`:
if after some prefix of operations the writer is closed, it remains
closed after any further operations (a closed writer rejects writes and
rollovers instead of reopening). -/
theorem C4_closed_monotonic (l₁ l₂ : List WriterOp) (w : IOWriter) (fs : FS)
    (h : (runOps l₁ w fs).1.closed = true) :
    (runOps (l₁ ++ l₂) w fs).1.closed = true := by
  rw [runOps_append]
  exact closed_mono_runOps l₂ _ _ h

/-- A freshly constructed writable writer on file `f`. -/
def sampleWriter : IOWriter :=
  { filename := "f", mode := "w", maxbytes := -1, maxlines := -1,
    ignore_linebreak := true, readable := false, writable := true,
    closed := false, idx := 1 }

/-- C4 witness: close, then attempt a rotate and a write; the writer
stays closed. -/
theorem C4_closed_monotonic_witness :
    (runOps ([WriterOp.close] ++ [WriterOp.rotate, WriterOp.write [] " " "\n"])
      sampleWriter [("f", "")]).1.closed = true :=
  C4_closed_monotonic [WriterOp.close] [WriterOp.rotate, WriterOp.write [] " " "\n"]
    sampleWriter [("f", "")] rfl

/-! ## Claim C5: `read` on a writer -/

/-- C5 (amended): calling `read` on a writer never yields a sequence of
sibling-file chunks: `IOWriter` does not implement `read`, so the
inherited `IOBase.read` unconditionally raises an unsupported-operation
error, for every writer state — open or closed, readable or not — and
every count argument. -/
theorem C5_read_unsupported (w : IOWriter) (n : Int) :
    w.read n = .error (.unsupported "IOWriter.read() not supported") :=
  rfl

/-- A hypothetical open, readable writer state (the flag combination the
claim quantifies over). -/
def readableWriter : IOWriter :=
  { filename := "f", mode := "+", maxbytes := -1, maxlines := -1,
    ignore_linebreak := true, readable := true, writable := true,
    closed := false, idx := 1 }

/-- C5 counterexample: an open, readable writer does not yield chunks
from `read` — the call fails with an unsupported-operation error. -/
theorem C5_counterexample :
    readableWriter.closed = false ∧ readableWriter.readable = true ∧
    readableWriter.read 0 = .error (.unsupported "IOWriter.read() not supported") ∧
    (readableWriter.read 0).toOption = none :=
  ⟨rfl, rfl, rfl, rfl⟩

/-! ## Claim C6: mode-string validation -/

/-- C6 (confirmed): every mode string composed only of characters from
`{x, r, w, a, b, t, +}` passes mode validation; a mode string with any
other character fails construction with a value error; a non-string
mode argument fails construction with a type error. -/
theorem C6_mode_validation (s r : String) :
    (s.data.all (fun c => "xrwabt+".data.contains c) = true →
      validateMode (.str s) = .ok s) ∧
    (s.data.all (fun c => "xrwabt+".data.contains c) = false →
      ∀ fs filename maxbytes maxlines ilb,
        IOWriter.init fs filename (.str s) maxbytes maxlines ilb =
          .error (.valueError ("Invalid mode: " ++ s))) ∧
    (∀ fs filename maxbytes maxlines ilb,
      IOWriter.init fs filename (.nonStr r) maxbytes maxlines ilb =
        .error (.typeError ("Invalid mode: " ++ r))) := by
  refine ⟨fun h => ?_, fun h fs filename maxbytes maxlines ilb => ?_,
    fun fs filename maxbytes maxlines ilb => ?_⟩
  · simp only [validateMode]
    rw [h]
    simp
  · have hv : validateMode (.str s) = .error (.valueError ("Invalid mode: " ++ s)) := by
      simp only [validateMode]
      rw [h]
      simp
    unfold IOWriter.init
    rw [hv]
  · unfold IOWriter.init
    simp [validateMode]

/-- C6 witness: the valid mode `"w+"`, the invalid mode `"z"` and a
non-string argument rendered `"42"`. -/
theorem C6_mode_validation_witness :
    validateMode (.str "w+") = .ok "w+" ∧
    IOWriter.init [] "f" (.str "z") (-1) (-1) true =
      .error (.valueError ("Invalid mode: " ++ "z")) ∧
    IOWriter.init [] "f" (.nonStr "42") (-1) (-1) true =
      .error (.typeError ("Invalid mode: " ++ "42")) :=
  ⟨(C6_mode_validation "w+" "42").1 rfl,
   (C6_mode_validation "z" "42").2.1 rfl [] "f" (-1) (-1) true,
   (C6_mode_validation "z" "42").2.2 [] "f" (-1) (-1) true⟩

/-! ## Claim C7: the text appended by `write` -/

theorem find?_append_of_none {α : Type} (p : α → Bool) (l₁ l₂ : List α)
    (h : l₁.find? p = none) : (l₁ ++ l₂).find? p = l₂.find? p := by
  induction l₁ with
  | nil => rfl
  | cons a as ih =>
    rw [List.find?_cons] at h
    cases hpa : p a with
    | true => rw [hpa] at h; exact absurd h (by simp)
    | false =>
      rw [hpa] at h
      simp only [List.cons_append, List.find?_cons, hpa]
      exact ih h

theorem fsRead_fsWrite (fs : FS) (name c : String) :
    fsRead (fsWrite fs name c) name = some c := by
  unfold fsWrite
  by_cases h : fs.any (fun p => p.1 = name) = true
  · rw [if_pos h]
    induction fs with
    | nil => simp at h
    | cons p ps ih =>
      by_cases hp : p.1 = name
      · simp [fsRead, List.find?_cons, hp]
      · have hps : ps.any (fun q => q.1 = name) = true := by
          simp only [List.any_cons, decide_eq_false hp, Bool.false_or] at h
          exact h
        simp only [List.map_cons, if_neg hp]
        simp only [fsRead, List.find?_cons, decide_eq_false hp]
        exact ih hps
  · rw [if_neg h]
    have hfree : ∀ p ∈ fs, ¬ p.1 = name := by
      intro p hp
      simp only [List.any_eq_true, decide_eq_true_eq] at h
      exact fun hc => h ⟨p, hp, hc⟩
    rw [fsRead_append_keyFree fs _ name hfree]
    simp [fsRead]

/-- C7 (confirmed): on an open, writable writer, `write` appends to the
file exactly the text obtained by rendering each argument (`None`
rendered as empty text), joining with the separator, and appending the
terminator; the flush is a buffer no-op, and the result of the call is
exactly the evaluation of rotation on the updated file. -/
theorem C7_write_appends (w : IOWriter) (fs : FS) (args : List (Option String))
    (sep term c : String) (hc : w.closed = false) (hw : w.writable = true)
    (hf : fsRead fs w.filename = some c) :
    w.write fs args sep term =
      w.rotate (fsWrite fs w.filename
        (c ++ (String.intercalate sep (args.map (fun x => x.getD "")) ++ term))) ∧
    fsRead (fsWrite fs w.filename
        (c ++ (String.intercalate sep (args.map (fun x => x.getD "")) ++ term)))
      w.filename =
      some (c ++ (String.intercalate sep (args.map (fun x => x.getD "")) ++ term)) := by
  constructor
  · have harg : List.map (fun (x : Option String) =>
        match x with | none => "" | some s => s) args =
        List.map (fun (x : Option String) => x.getD "") args := by
      apply List.map_congr_left
      intro x _
      cases x <;> rfl
    unfold IOWriter.write IOWriter.flush
    rw [hc, hf]
    simp [hw, harg]
  · exact fsRead_fsWrite _ _ _

/-- C7 witness: a concrete write of `["a", None, "b"]` with separator
`","` and terminator `"!\n"` onto a file holding `"hello"`. -/
theorem C7_write_appends_witness :
    sampleWriter.write [("f", "hello")] [some "a", none, some "b"] "," "!\n" =
      sampleWriter.rotate (fsWrite [("f", "hello")] "f" ("hello" ++ ("a,,b" ++ "!\n"))) ∧
    fsRead (fsWrite [("f", "hello")] "f" ("hello" ++ ("a,,b" ++ "!\n"))) "f" =
      some ("hello" ++ ("a,,b" ++ "!\n")) :=
  C7_write_appends sampleWriter [("f", "hello")] [some "a", none, some "b"]
    "," "!\n" "hello" rfl rfl rfl

/-! ## Claim C8: singleton metaclass -/

/-- C8 (confirmed): for a type not yet registered, the first
instantiation call constructs and stores the instance built from its
arguments, and a second call with possibly different arguments returns
the identical stored instance, ignoring the new arguments. -/
theorem C8_singleton (reg : Registry) (cls : Nat) (a1 a2 : List Nat)
    (h : reg.find? (fun p => p.1 = cls) = none) :
    (singletonCall reg cls a1).1 = { cls := cls, ctorArgs := a1 } ∧
    (singletonCall (singletonCall reg cls a1).2 cls a2).1 =
      (singletonCall reg cls a1).1 := by
  unfold singletonCall
  rw [h]
  have hfind : ((reg ++ [(cls, ({ cls := cls, ctorArgs := a1 } : PyInstance))]).find?
      (fun p => p.1 = cls)) = some (cls, { cls := cls, ctorArgs := a1 }) := by
    rw [find?_append_of_none _ _ _ h]
    simp
  simp [hfind]

/-- C8 witness: registering class `0` with arguments `[1]`, then calling
again with `[2]`. -/
theorem C8_singleton_witness :
    (singletonCall [] 0 [1]).1 = { cls := 0, ctorArgs := [1] } ∧
    (singletonCall (singletonCall [] 0 [1]).2 0 [2]).1 =
      (singletonCall [] 0 [1]).1 :=
  C8_singleton [] 0 [1] [2] rfl

/-! ## Claim C9: the bug-report banner -/

/-- C9 (confirmed): for a library exception constructed with a non-empty
message, the bug-report banner is appended exactly when the failure was
not marked as a valid outcome; with `valid = true` the message is left
unchanged. -/
theorem C9_report_banner (valid : Bool) (msg : String) (width : Nat)
    (h : ¬ msg = "") :
    hannahExceptionMsg valid msg width =
      if valid then msg else msg ++ report width := by
  unfold hannahExceptionMsg
  rw [if_neg h]
  cases valid with
  | true => simp
  | false => simp [h]

/-- C9 witness: the message `"boom"` at width 80, invalid case. -/
theorem C9_report_banner_witness :
    hannahExceptionMsg false "boom" 80 =
      if false then "boom" else "boom" ++ report 80 :=
  C9_report_banner false "boom" 80 (by decide)

/-! ## Claim C10: the sibling listing always counts the base file -/

/-- C10 (confirmed): for every directory state and path, the sibling
listing ends with the base file name itself (appended after the sorted
backup matches), so the sibling count is at least 1 even with no backup
files present; and a successful construction seeds the writer's backup
index with exactly that count. -/
theorem C10_siblings_count (fs : FS) (filename : String) :
    (IOHelper.siblings fs filename).getLast? = some filename ∧
    1 ≤ IOHelper.index fs filename ∧
    (∀ mode maxbytes maxlines ilb w fs',
      IOWriter.init fs filename mode maxbytes maxlines ilb = .ok (w, fs') →
      w.idx = IOHelper.index fs filename) := by
  refine ⟨?_, ?_, ?_⟩
  · unfold IOHelper.siblings
    exact List.getLast?_concat _
  · unfold IOHelper.index IOHelper.siblings
    simp
  · intro mode maxbytes maxlines ilb w fs' hinit
    unfold IOWriter.init at hinit
    repeat' split at hinit
    all_goals try simp_all
    all_goals repeat' split at hinit
    all_goals try simp_all
    all_goals rw [← hinit.1]

/-- C10 witness: a directory holding only the base file `f`; the
constructed writer's index is the sibling count `1`. -/
theorem C10_siblings_count_witness :
    (IOHelper.siblings [("f", "")] "f").getLast? = some "f" ∧
    ({ filename := "f", mode := "w", maxbytes := -1, maxlines := -2,
       ignore_linebreak := true, readable := false, writable := true,
       closed := false, idx := 1 } : IOWriter).idx =
      IOHelper.index [("f", "")] "f" :=
  ⟨(C10_siblings_count [("f", "")] "f").1,
   (C10_siblings_count [("f", "")] "f").2.2 (.str "w") (-1) (-1) true
     _ [("f", "")] (by rfl)⟩

end Hannah
